import Mathlib

/-!
Shallow embedding of the query-templating / metric-delta core of the
`snowflake` dashboard repository, and theorems settling the frozen claims.

Embedded source files:
  * `core/query_executor.py`    — `QueryExecutor.execute_query`,
    `QueryExecutor.get_date_range`, and the user-filter clause it builds.
  * `components/metric_renderer.py` — `_build_query_params`,
    `_parse_formatted_value`, `_extract_metric_value`, `_format_number`,
    `_format_duration`, and the delta block of `render`.
  * `components/chart_renderer.py`  — `_build_query_params` (identical to the
    metric renderer's copy) and `_get_chart_config`.

Python values are modelled as follows: `str` as `String`, numbers as `ℚ`
(the numeric claims only involve exactly representable decimals, so binary
floating point rounding never shows up at the claimed inputs; where a Python
format string rounds, we round the exact rational half-to-even as CPython's
float formatting does), `None`/absent dict keys as `Option`, raised
exceptions as `Except PyErr`.
-/

/-- Python exceptions that the embedded code can raise. -/
inductive PyErr where
  /-- `TypeError`, e.g. `isinstance()` with a non-type second argument. -/
  | typeError
  /-- `NameError`: a name that is bound nowhere in scope. -/
  | nameError
  /-- `UnboundLocalError`: a local read before any assignment ran. -/
  | unboundLocalError
  /-- `KeyError` from `str.format` on a placeholder with no argument. -/
  | keyError (name : String)
  deriving Repr, DecidableEq

/-! ## Python string primitives -/

/-- Characters removed by Python `str.strip()` (ASCII whitespace; the inputs
in this code base are ASCII). -/
def isPyWs (c : Char) : Bool :=
  c = ' ' || c = '\t' || c = '\n' || c = '\r' || c = '\x0b' || c = '\x0c'

/-- Python `s.strip()`. -/
def pyStrip (s : String) : String :=
  String.mk (((s.toList.dropWhile isPyWs).reverse.dropWhile isPyWs).reverse)

/-- Python `s.lower()` (ASCII case mapping; the values compared in this code
base are ASCII). -/
def pyLower (s : String) : String :=
  String.mk (s.toList.map Char.toLower)

/-- Python `s[:-1]`. -/
def pyDropLast (s : String) : String :=
  String.mk s.toList.dropLast

/-- Python `s.endswith(c)` for a one-character suffix. -/
def pyEndsWith (s : String) (c : Char) : Bool :=
  s.toList.getLast? = some c

/-- Python `s.endswith("m ")` (a two-character suffix; kept only because the
source's dead "minutes" guard tests it). -/
def pyEndsWithMSpace (s : String) : Bool :=
  s.toList.reverse.take 2 = [' ', 'm']

/-- Python `s.replace("'", "''")`: double every single quote. -/
def pyDoubleQuotes (s : String) : String :=
  String.mk (s.toList.foldr (fun c acc => if c = '\'' then '\'' :: '\'' :: acc else c :: acc) [])

/-- Python `s.replace("$", "").replace("%", "").replace(",", "")`. -/
def pyRemoveMoneyChars (s : String) : String :=
  String.mk (s.toList.filter (fun c => !(c = '$' || c = '%' || c = ',')))

/-- Numeric value of a digit string (empty list gives 0, as in the fraction
part handling below where one side of the dot may be empty). -/
def natOfDigits (cs : List Char) : ℕ :=
  cs.foldl (fun acc c => 10 * acc + (c.toNat - '0'.toNat)) 0

/-- Core of Python `float(s)` on an unsigned decimal literal: digits, with an
optional dot and fraction digits; at least one digit overall.  (Python's
`float` also accepts exponents, underscores, `inf`/`nan`; none of those forms
occur in this code base's formatted values.) -/
def pyFloatCore (cs : List Char) : Option ℚ :=
  let ip := cs.takeWhile Char.isDigit
  let rest := cs.dropWhile Char.isDigit
  match rest with
  | [] => if ip.isEmpty then none else some (natOfDigits ip)
  | '.' :: rest2 =>
    let fp := rest2.takeWhile Char.isDigit
    let rest3 := rest2.dropWhile Char.isDigit
    if rest3.isEmpty then
      if ip.isEmpty && fp.isEmpty then none
      else some ((natOfDigits ip : ℚ) + (natOfDigits fp : ℚ) / (10 : ℚ) ^ fp.length)
    else none
  | _ => none

/-- Python `float(s)` on a string: strip, optional sign, decimal literal;
`none` models a raised `ValueError`. -/
def pyFloatOfString (s : String) : Option ℚ :=
  match (pyStrip s).toList with
  | '+' :: cs => pyFloatCore cs
  | '-' :: cs => (pyFloatCore cs).map Neg.neg
  | cs => pyFloatCore cs

/-! ## Python number formatting

CPython's `format` rounds the decimal expansion half-to-even; on the exact
rationals used here that is `roundHalfEven` below. -/

/-- Round a rational to the nearest integer, ties to even. -/
def roundHalfEven (q : ℚ) : ℤ :=
  let f := ⌊q⌋
  let r := q - (f : ℚ)
  if r < 1/2 then f
  else if r > 1/2 then f + 1
  else if f % 2 = 0 then f else f + 1

/-- Left-pad the decimal digits of `n` with zeros to width `w`. -/
def padNat (w n : ℕ) : String :=
  let s := toString n
  String.mk (List.replicate (w - s.length) '0') ++ s

/-- Grouping step for comma separators, applied to the reversed digits. -/
def commaGroupRev : List Char → List Char
  | c1 :: c2 :: c3 :: c4 :: rest => c1 :: c2 :: c3 :: ',' :: commaGroupRev (c4 :: rest)
  | l => l

/-- Insert comma thousands separators into a digit string, as Python's `,`
format option does. -/
def commaGroupDigits (s : String) : String :=
  String.mk (commaGroupRev s.toList.reverse).reverse

/-- Python `f"{n:,}"` for an integer. -/
def pyCommaInt (n : ℤ) : String :=
  (if n < 0 then "-" else "") ++ commaGroupDigits (toString n.natAbs)

/-- Python `f"{x:.1f}"`: one decimal, minus sign taken from the value (so a
negative value that rounds to zero still prints `-0.0`, as CPython does). -/
def pyFixed1 (q : ℚ) : String :=
  let n := (roundHalfEven (q * 10)).natAbs
  (if q < 0 then "-" else "") ++ toString (n / 10) ++ "." ++ toString (n % 10)

/-- Python `f"{x:+.1f}"`: as `pyFixed1` but with an explicit plus sign on
non-negative values. -/
def pySignedFixed1 (q : ℚ) : String :=
  if q < 0 then pyFixed1 q else "+" ++ pyFixed1 q

/-- Python `f"{x:,.2f}"`: comma-grouped, two decimals. -/
def pyCommaFixed2 (q : ℚ) : String :=
  let n := (roundHalfEven (q * 100)).natAbs
  (if q < 0 then "-" else "") ++ commaGroupDigits (toString (n / 100)) ++ "." ++ padNat 2 (n % 100)

/-- Python `s.rstrip('0').rstrip('.')`. -/
def pyStripTrailingZeros (s : String) : String :=
  let l := s.toList.reverse.dropWhile (· = '0')
  String.mk (l.dropWhile (· = '.')).reverse

/-! ## Calendar dates

`datetime.date` values.  `predDay` is one `timedelta(days=1)` step backwards;
`subDays` iterates it, which agrees with Python's date arithmetic on every
date Python accepts (year ≥ 1). -/

/-- A `datetime.date` value. -/
structure Date where
  year : ℕ
  month : ℕ
  day : ℕ
  deriving Repr, DecidableEq

/-- Gregorian leap-year test. -/
def isLeap (y : ℕ) : Bool :=
  y % 4 = 0 && (y % 100 ≠ 0 || y % 400 = 0)

/-- Number of days in a month. -/
def daysInMonth (y m : ℕ) : ℕ :=
  if m = 2 then (if isLeap y then 29 else 28)
  else if m = 4 ∨ m = 6 ∨ m = 9 ∨ m = 11 then 30
  else 31

/-- The previous calendar day (`d - timedelta(days=1)`). -/
def predDay (d : Date) : Date :=
  if 1 < d.day then ⟨d.year, d.month, d.day - 1⟩
  else if 1 < d.month then ⟨d.year, d.month - 1, daysInMonth d.year (d.month - 1)⟩
  else ⟨d.year - 1, 12, 31⟩

/-- `d - timedelta(days=n)`. -/
def subDays (d : Date) : ℕ → Date
  | 0 => d
  | n + 1 => subDays (predDay d) n

/-- Python `d.strftime("%Y-%m-%d")` (year zero-padded to four digits, as for
every year this application can see). -/
def fmtDate (d : Date) : String :=
  padNat 4 d.year ++ "-" ++ padNat 2 d.month ++ "-" ++ padNat 2 d.day

/-! ## `QueryExecutor.get_date_range` (core/query_executor.py lines 219–275)

The module does `from datetime import datetime`, so inside this file the
name `datetime` is the *class* `datetime.datetime` and `datetime.date` is its
instance method `date()`, not the `date` type.  Consequently
`isinstance(custom_start, datetime.date)` on line 264 — the first statement
of the `custom` branch — raises
`TypeError: isinstance() arg 2 must be a type, a tuple of types, or a union`
no matter what the arguments are.  The embedding therefore maps the `custom`
branch to `Except.error .typeError`; every other branch is total. -/

def get_date_range (date_filter : String) (custom_start custom_end : Option Date)
    (today : Date) : Except PyErr (String × String) :=
  let end_date := today
  if date_filter = "1_day" then
    .ok (fmtDate (subDays end_date 1), fmtDate end_date)
  else if date_filter = "7_days" then
    .ok (fmtDate (subDays end_date 7), fmtDate end_date)
  else if date_filter = "14_days" then
    .ok (fmtDate (subDays end_date 14), fmtDate end_date)
  else if date_filter = "1_month" then
    -- temp_date = end_date.replace(day=1) - timedelta(days=1)
    let temp_date := subDays ⟨end_date.year, end_date.month, 1⟩ 1
    -- start_date = end_date.replace(year=temp.year, month=temp.month,
    --                               day=min(end_date.day, temp_date.day))
    let start_date : Date := ⟨temp_date.year, temp_date.month, min end_date.day temp_date.day⟩
    .ok (fmtDate start_date, fmtDate end_date)
  else if date_filter = "3_months" then
    .ok (fmtDate (subDays end_date 90), fmtDate end_date)
  else if date_filter = "6_months" then
    .ok (fmtDate (subDays end_date 180), fmtDate end_date)
  else if date_filter = "1_year" then
    .ok (fmtDate (subDays end_date 365), fmtDate end_date)
  else if date_filter = "custom" then
    -- `isinstance(custom_start, datetime.date)` raises TypeError (see above);
    -- custom_start and custom_end are never consulted.
    let _ := custom_start
    let _ := custom_end
    .error .typeError
  else
    .ok (fmtDate (subDays end_date 7), fmtDate end_date)

/-! ## Result tables

A pandas `DataFrame` as this code uses it: named columns, each with a
pandas dtype that either is or is not numeric (`pd.api.types.is_numeric_dtype`),
and positionally significant rows.  Cells are numbers, strings, or
null (`None`/`NaN`; both make `pd.isna` true).  Tables produced by
`to_pandas()` carry the default range index, so label `0` is the first row. -/

/-- One cell of a result table. -/
inductive Cell where
  /-- A null entry: Python `None` or a float `NaN` (`pd.isna` is true). -/
  | null
  /-- A numeric entry. -/
  | num (q : ℚ)
  /-- A string entry. -/
  | str (s : String)
  deriving Repr, DecidableEq

/-- One column of a result table. -/
structure DfColumn where
  name : String
  /-- Whether `pd.api.types.is_numeric_dtype` holds for the column. -/
  numeric : Bool
  cells : List Cell
  deriving Repr, DecidableEq

/-- A pandas `DataFrame`. -/
structure DataFrame where
  cols : List DfColumn
  nrows : ℕ
  deriving Repr, DecidableEq

/-- `pd.DataFrame()`, the empty table. -/
def DataFrame.emptyDf : DataFrame := ⟨[], 0⟩

/-- pandas `df.empty`: true when either axis has length zero. -/
def DataFrame.isEmpty (df : DataFrame) : Bool :=
  df.nrows = 0 || df.cols.isEmpty

/-! ## `QueryExecutor.execute_query` (core/query_executor.py lines 61–138)

The SQL template is modelled as a token list (literal runs and named
placeholders), so `str.format` is the obvious fold; a placeholder whose name
is not among the supplied keyword arguments raises `KeyError`, exactly as
`str.format` does.  The warehouse (`session.sql(...).to_pandas()`) is an
external collaborator and enters as the oracle `run_sql`; any exception it
raises is caught by the function's handlers (both of which can run, since by
then `formatted_query` is bound) and turned into an empty table.

The embedding starts after `get_session()` succeeds (session acquisition is
outside the `try` block and outside the spec'd scope).  A Python template
that is the empty string is falsy and is modelled as `query = none`. -/

/-- One token of a Python format-string template. -/
inductive TmplPart where
  /-- A literal run of text. -/
  | lit (s : String)
  /-- A `{name}` placeholder. -/
  | ph (name : String)
  deriving Repr, DecidableEq

/-- Python `template.format(**args)`: substitute placeholders, raising
`KeyError` on a placeholder with no matching argument. -/
def pyFormat (tmpl : List TmplPart) (args : List (String × String)) :
    Except PyErr String :=
  tmpl.foldl
    (fun acc part =>
      match acc, part with
      | .error e, _ => .error e
      | .ok s, .lit t => .ok (s ++ t)
      | .ok s, .ph name =>
        match args.lookup name with
        | some v => .ok (s ++ v)
        | none => .error (.keyError name))
    (.ok "")

/-- The `query_config` dict as `execute_query` reads it. -/
structure QueryConfig where
  /-- `query_config.get("label", ...)`; only logged. -/
  label : Option String
  /-- `query_config.get("query")`; `none` for a missing (or empty, hence
  falsy) template. -/
  query : Option (List TmplPart)
  /-- `query_config.get("apply_object_filter", False)`, default applied. -/
  apply_object_filter : Bool
  deriving Repr, DecidableEq

/-- The `filters` dict as `execute_query` reads it (each field `none` when
the key is absent). -/
structure ExecFilters where
  start_date : Option String
  end_date : Option String
  object_type : Option String
  object_value : Option String
  deriving Repr, DecidableEq

/-- The all-absent `filters` dict (`filters or {}`). -/
def ExecFilters.emptyFilters : ExecFilters := ⟨none, none, none, none⟩

/-- Lines 100–113 of core/query_executor.py: the `user_filter` placeholder
value.  Defaults to the no-op clause `AND 1=1`; only
`apply_object_filter ∧ object_type == "user"` with a truthy value other than
the exact string `"All"` produces an equality clause (no quote escaping, no
case folding, no stripping in this path). -/
def user_filter_clause (apply_object_filter : Bool) (object_type object_value : Option String) :
    String :=
  if apply_object_filter ∧ object_type = some "user" then
    match object_value with
    | some u => if u ≠ "" ∧ u ≠ "All" then "AND USER_NAME = '" ++ u ++ "'" else "AND 1=1"
    | none => "AND 1=1"
  else "AND 1=1"

/-- `QueryExecutor.execute_query`.  `run_sql` is the warehouse oracle;
`now` is `datetime.now()`'s date (used only by the `start_date` fallback).

On a formatting failure the generic `except Exception` handler runs
`logger.error(f"... SQL: {formatted_query}")`, but `formatted_query` was
never assigned, so the handler itself raises `UnboundLocalError`, which
escapes to the caller. -/
def execute_query (run_sql : String → Except PyErr DataFrame)
    (query_config : QueryConfig) (filters : Option ExecFilters) (now : Date) :
    Except PyErr DataFrame :=
  match query_config.query with
  | none => .ok DataFrame.emptyDf
  | some query_template =>
    let fs := filters.getD ExecFilters.emptyFilters
    -- start_date fallback when missing or empty (falsy)
    let start_date_str :=
      match fs.start_date with
      | some s => if s = "" then fmtDate (subDays now 7) else s
      | none => fmtDate (subDays now 7)
    -- end_date is passed through format unchanged; None formats as "None"
    let end_date_str := fs.end_date.getD "None"
    let user_filter :=
      user_filter_clause query_config.apply_object_filter fs.object_type fs.object_value
    match pyFormat query_template
        [("start_date", start_date_str), ("end_date", end_date_str),
         ("user_filter", user_filter)] with
    | .error _ =>
      -- except Exception: the handler's f-string reads the unbound local
      -- `formatted_query` and raises.
      .error .unboundLocalError
    | .ok formatted_query =>
      match run_sql formatted_query with
      | .error _ => .ok DataFrame.emptyDf
      | .ok df => .ok df

/-! ## `_build_query_params` (components/metric_renderer.py lines 180–219;
components/chart_renderer.py lines 184–224 are character-for-character the
same logic)

Only the object-filter fragment is interesting; the date part just calls
`get_date_range`. -/

/-- The fixed object-category → column lookup table. -/
def col_map (object_type : String) : Option String :=
  if object_type = "user" then some "USER_NAME"
  else if object_type = "warehouse" then some "WAREHOUSE_NAME"
  else if object_type = "role" then some "ROLE_NAME"
  else if object_type = "database" then some "DATABASE_NAME"
  else none

/-- The object-filter fragment computed by `_build_query_params`.
`object_type`/`object_value` are `filters.get("object_type", "all")` and
`filters.get("object_value", "")` (so `none` models an absent key); the value
is stripped before every test. -/
def object_filter_clause (apply_object_filter : Bool)
    (object_type object_value : Option String) : String :=
  if apply_object_filter then
    let ot := object_type.getD "all"
    let ov := pyStrip (object_value.getD "")
    if ot ≠ "all" ∧ ov ≠ "" ∧ pyLower ov ≠ "all" then
      match col_map ot with
      | some column_name => "AND " ++ column_name ++ " = '" ++ pyDoubleQuotes ov ++ "'"
      | none => ""
    else ""
  else ""

/-- The UI `filters` dict as the renderers read it. -/
structure UiFilters where
  date_filter : Option String
  custom_start : Option Date
  custom_end : Option Date
  object_type : Option String
  object_value : Option String
  deriving Repr, DecidableEq

/-- `_build_query_params`: resolved dates plus the object-filter fragment.
Note that `apply_object_filter` defaults to `True` in the renderers (the
caller passes `query_config.get("apply_object_filter", True)`), and that a
raised error from `get_date_range` propagates. -/
def build_query_params (filters : UiFilters) (apply_object_filter : Bool)
    (today : Date) : Except PyErr (String × String × String) := do
  let (start_date, end_date) ←
    get_date_range (filters.date_filter.getD "7_days") filters.custom_start
      filters.custom_end today
  pure (start_date, end_date,
    object_filter_clause apply_object_filter filters.object_type filters.object_value)

/-! ## `MetricRenderer._parse_formatted_value`
(components/metric_renderer.py lines 254–290)

The source lowercases the stripped input and then runs six independent
`if s_value.endswith(...)` blocks, each returning on a successful
`float(s_value[:-1])` and falling through (`except ValueError: pass`) on a
failed one, before stripping `$`/`%`/`,` and trying a plain `float`.
Because of the lowercasing, the millions block (`endswith('b'/'m'/'k')`)
fires for a minutes-suffixed value before the minutes block can; the
minutes block additionally guards `not s_value.endswith('m ')`, which is
always false on a stripped string. -/

/-- One suffix block: on `cond`, try `float(s[:-1])` scaled, else fall
through to `next`. -/
def trySuffix (cond : Bool) (scale : ℚ) (s : String) (next : Option ℚ) : Option ℚ :=
  if cond then
    match pyFloatOfString (pyDropLast s) with
    | some x => some (x * scale)
    | none => next
  else next

/-- `MetricRenderer._parse_formatted_value` on a string input (the renderer
first applies `str(value)`; every claimed input is already a string).
`none` models Python's `return None`. -/
def parse_formatted_value (value : String) : Option ℚ :=
  let s := pyLower (pyStrip value)
  trySuffix (pyEndsWith s 'b') 1000000000 s <|
  trySuffix (pyEndsWith s 'm') 1000000 s <|
  trySuffix (pyEndsWith s 'k') 1000 s <|
  trySuffix (pyEndsWith s 'h') 3600 s <|
  -- the "minutes" block; unreachable with a parseable prefix because the
  -- millions block above already consumed every 'm'-suffixed string
  trySuffix (pyEndsWith s 'm' && s.toList.length > 1 && !pyEndsWithMSpace s) 60 s <|
  trySuffix (pyEndsWith s 's') 1 s <|
  pyFloatOfString (pyRemoveMoneyChars s)

/-! ## `MetricRenderer._format_number` and `_format_duration`
(components/metric_renderer.py lines 334–382) -/

/-- `MetricRenderer._format_number` on a numeric value.  Python's
`value == int(value)` test (int() truncates toward zero) holds exactly when
the rational is an integer.  The source's conditional
`... if '.' in f"{value:,.2f}" else f"{value:,.0f}"` always takes the first
arm, since a `,.2f` rendering always contains a dot. -/
def format_number (value : ℚ) : String :=
  if value = 0 then "0"
  else if 1000000000 ≤ |value| then pyFixed1 (value / 1000000000) ++ "B"
  else if 1000000 ≤ |value| then pyFixed1 (value / 1000000) ++ "M"
  else if 1000 ≤ |value| then pyFixed1 (value / 1000) ++ "K"
  else if value.den = 1 then pyCommaInt value.num
  else pyStripTrailingZeros (pyCommaFixed2 value)

/-- `MetricRenderer._format_duration` on a numeric seconds value. -/
def format_duration (seconds : ℚ) : String :=
  if seconds = 0 then "0s"
  else if 3600 ≤ |seconds| then pyFixed1 (seconds / 3600) ++ "h"
  else if 60 ≤ |seconds| then pyFixed1 (seconds / 60) ++ "m"
  else if seconds.den = 1 then toString seconds.num ++ "s"
  else pyFixed1 seconds ++ "s"

/-! ## `MetricRenderer._extract_metric_value`
(components/metric_renderer.py lines 292–332) -/

/-- Python `str(cell)` for the cell kinds float() can reject (a numeric cell
always converts, so only the string case is ever reached on the `return
str(value)` path; the other arms are placeholders for completeness). -/
def cellStr : Cell → String
  | .str s => s
  | .num q => toString q.num
  | .null => "nan"

/-- Python `float(value)` on a non-null cell; `none` models a raised
`ValueError`/`TypeError`. -/
def cellFloat : Cell → Option ℚ
  | .num q => some q
  | .str s => pyFloatOfString s
  | .null => none

/-- The selection loop of `_extract_metric_value`: the first row's value of
the first column whose dtype is numeric, else (`value is None` after the
loop) the first row's first column.  `none` means the loop found nothing and
there is no column to fall back on. -/
def extracted_cell (df : DataFrame) : Option Cell :=
  match df.cols.find? (fun c => c.numeric) with
  | some c => some (c.cells.headD .null)
  | none => (df.cols.head?).map (fun c => c.cells.headD .null)

/-- Python `str(float)` of the already-converted numeric value, used only by
the unknown-format fallback arm (no claim exercises it): exact for integral
values, and rendered to two decimals otherwise, whereas Python would print
the shortest float repr. -/
def pyFloatReprApprox (q : ℚ) : String :=
  if q.den = 1 then toString q.num ++ ".0" else pyCommaFixed2 q

/-- The format dispatch at the end of `_extract_metric_value`. -/
def format_by_type (format_type : String) (numeric_value : ℚ) : String :=
  if format_type = "number" then format_number numeric_value
  else if format_type = "percentage" then pyFixed1 numeric_value ++ "%"
  else if format_type = "currency" then "$" ++ pyCommaFixed2 numeric_value
  else if format_type = "duration" then format_duration numeric_value
  else pyFloatReprApprox numeric_value

/-- `MetricRenderer._extract_metric_value`. -/
def extract_metric_value (df : DataFrame) (format_type : String) : String :=
  if df.isEmpty then "N/A"
  else
    match extracted_cell df with
    | none => "N/A"        -- unreachable for a non-empty table
    | some value =>
      match value with
      | .null => "N/A"     -- pd.isna(value)
      | _ =>
        match cellFloat value with
        | none => cellStr value
        | some numeric_value => format_by_type format_type numeric_value

/-! ## The delta block of `MetricRenderer.render`
(components/metric_renderer.py lines 95–117)

`numeric_value` and `numeric_comparison_value` are the results of
`_parse_formatted_value` on the current and prior formatted values. -/

/-- The delta computed by `MetricRenderer.render` from the two parsed
values; `none` models "no delta reported" (`delta_value = None`). -/
def compute_delta (numeric_value numeric_comparison_value : Option ℚ) : Option String :=
  match numeric_value, numeric_comparison_value with
  | some v, some p =>
    if p ≠ 0 then
      some (pySignedFixed1 ((v - p) / |p| * 100) ++ "%")
    else if v ≠ 0 then
      some ("+" ++ format_number v ++ " (new)")
    else none
  | _, _ => none

/-! ## `ChartRenderer._get_chart_config`
(components/chart_renderer.py lines 272–315)

Lines 288–312 build the resolved configuration: base query-definition
fields, then `config.update(toggle_config)` for a non-default toggle found
in `toggle_options`, then each non-`None` explicit argument.  Line 313 then
executes `if label is not None:` — but no name `label` is bound anywhere in
`_get_chart_config`'s scope (it is not a parameter, a local, a global, or a
builtin), so the function raises `NameError` before it can return. -/

/-- The resolved chart configuration record. -/
structure ChartConfig where
  chart_type : String
  x_col : Option String
  y_col : Option String
  value_col : Option String
  label : String
  color_col : Option String
  hover_data : List String
  color_continuous_scale : String
  deriving Repr, DecidableEq

/-- A toggle-variant dict: each field is present (`some`) or absent
(`none`); `config.update` overwrites exactly the present ones. -/
structure ToggleConfig where
  chart_type : Option String
  x_col : Option String
  y_col : Option String
  value_col : Option String
  label : Option String
  color_col : Option String
  hover_data : Option (List String)
  color_continuous_scale : Option String
  deriving Repr, DecidableEq

/-- A toggle dict with no keys. -/
def ToggleConfig.emptyToggle : ToggleConfig :=
  ⟨none, none, none, none, none, none, none, none⟩

/-- A chart Query Definition as `_get_chart_config` reads it. -/
structure ChartQueryDef where
  chart_type : Option String
  x_col : Option String
  y_col : Option String
  value_col : Option String
  label : Option String
  color_col : Option String
  hover_data : Option (List String)
  color_continuous_scale : Option String
  toggle_options : List (String × ToggleConfig)
  deriving Repr, DecidableEq

/-- `config.update(toggle_config)`. -/
def applyToggle (c : ChartConfig) (t : ToggleConfig) : ChartConfig :=
  { chart_type := t.chart_type.getD c.chart_type
    x_col := match t.x_col with | some v => some v | none => c.x_col
    y_col := match t.y_col with | some v => some v | none => c.y_col
    value_col := match t.value_col with | some v => some v | none => c.value_col
    label := t.label.getD c.label
    color_col := match t.color_col with | some v => some v | none => c.color_col
    hover_data := t.hover_data.getD c.hover_data
    color_continuous_scale := t.color_continuous_scale.getD c.color_continuous_scale }

/-- Lines 288–312 of `_get_chart_config`: everything up to (not including)
the line that crashes. -/
def resolve_chart_config (query_config : ChartQueryDef) (current_toggle : String)
    (chart_type x_col y_col value_col color_col : Option String)
    (hover_data : Option (List String)) : ChartConfig :=
  let config : ChartConfig :=
    { chart_type := query_config.chart_type.getD "bar"
      x_col := query_config.x_col
      y_col := query_config.y_col
      value_col := query_config.value_col
      label := query_config.label.getD "Chart Title"
      color_col := query_config.color_col
      hover_data := query_config.hover_data.getD []
      color_continuous_scale := query_config.color_continuous_scale.getD "Viridis" }
  let config :=
    if current_toggle ≠ "default" then
      match query_config.toggle_options.lookup current_toggle with
      | some toggle_config => applyToggle config toggle_config
      | none => config
    else config
  let config := match chart_type with | some v => { config with chart_type := v } | none => config
  let config := match x_col with | some v => { config with x_col := some v } | none => config
  let config := match y_col with | some v => { config with y_col := some v } | none => config
  let config := match value_col with | some v => { config with value_col := some v } | none => config
  let config := match color_col with | some v => { config with color_col := some v } | none => config
  let config := match hover_data with | some v => { config with hover_data := v } | none => config
  config

/-- `ChartRenderer._get_chart_config`: resolves the configuration and then
raises `NameError` on `if label is not None:` (line 313), the name `label`
being unbound in that scope. -/
def get_chart_config (query_config : ChartQueryDef) (current_toggle : String)
    (chart_type x_col y_col value_col color_col : Option String)
    (hover_data : Option (List String)) : Except PyErr ChartConfig :=
  let _config :=
    resolve_chart_config query_config current_toggle chart_type x_col y_col
      value_col color_col hover_data
  .error .nameError

/-! ## Theorems settling the claims -/

/-- C1: the claim says `execute_query` never raises and returns an empty
table on any execution failure.  It does return an empty table for a missing
template and for a warehouse/session error — but for a malformed template
(a placeholder `str.format` cannot fill) the `except Exception` handler
itself reads the never-assigned local `formatted_query`, so the call raises
`UnboundLocalError` to its caller instead of returning an empty table. -/
theorem execute_query_error_behavior :
    execute_query (fun _ => .ok ⟨[⟨"X", true, [.num 1]⟩], 1⟩)
        ⟨some "q", none, false⟩ none ⟨2024, 5, 20⟩ = .ok DataFrame.emptyDf
  ∧ execute_query (fun _ => .error .typeError)
        ⟨some "q", some [.lit "SELECT 1 WHERE 1=1 ", .ph "user_filter"], false⟩
        (some ⟨some "2024-01-01", some "2024-01-02", none, none⟩) ⟨2024, 5, 20⟩
      = .ok DataFrame.emptyDf
  ∧ execute_query (fun _ => .ok DataFrame.emptyDf)
        ⟨some "q", some [.lit "SELECT ", .ph "bogus"], false⟩
        (some ⟨some "2024-01-01", some "2024-01-02", none, none⟩) ⟨2024, 5, 20⟩
      = .error .unboundLocalError := by
  refine ⟨rfl, by with_unfolding_all rfl, by with_unfolding_all rfl⟩

/-- C2: the claim says `get_date_range` never throws for every
`date_filter` and every combination of custom bounds.  But the module does
`from datetime import datetime`, making `datetime.date` a method rather than
a type, so the `custom` branch's `isinstance(custom_start, datetime.date)`
raises `TypeError` — whether or not custom bounds are supplied. -/
theorem get_date_range_custom_raises :
    get_date_range "custom" none none ⟨2025, 1, 15⟩ = .error .typeError
  ∧ get_date_range "custom" (some ⟨2025, 1, 1⟩) (some ⟨2025, 1, 10⟩) ⟨2025, 1, 15⟩
      = .error .typeError := ⟨rfl, rfl⟩

/-- C7: the claim says `custom` with start > end falls back to the
`"7_days"` pair and warns.  In fact the `custom` branch raises `TypeError`
before it can compare the bounds, while `"7_days"` on the same day does
return the pair the claim expects the fallback to produce. -/
theorem get_date_range_custom_start_after_end_raises :
    get_date_range "custom" (some ⟨2024, 5, 10⟩) (some ⟨2024, 5, 1⟩) ⟨2024, 5, 20⟩
      = .error .typeError
  ∧ get_date_range "7_days" (some ⟨2024, 5, 10⟩) (some ⟨2024, 5, 1⟩) ⟨2024, 5, 20⟩
      = .ok ("2024-05-13", "2024-05-20") := by
  refine ⟨rfl, by with_unfolding_all rfl⟩

/-- C3: the claim's precedence example — base fields, then toggle-variant
overrides, then non-null explicit overrides — is exactly what lines 288–312
of `_get_chart_config` compute (`resolve_chart_config` yields
chart_type "line", x_col "A", y_col "B" on the claimed inputs), but the
function then executes `if label is not None:` where the name `label` is
unbound, so every call raises `NameError` and never returns the resolved
configuration. -/
theorem get_chart_config_raises_name_error :
    get_chart_config
        ⟨some "bar", some "A", none, none, none, none, none, none,
         [("by_time", ⟨none, none, some "B", none, none, none, none, none⟩)]⟩
        "by_time" (some "line") none none none none none = .error .nameError
  ∧ (resolve_chart_config
        ⟨some "bar", some "A", none, none, none, none, none, none,
         [("by_time", ⟨none, none, some "B", none, none, none, none, none⟩)]⟩
        "by_time" (some "line") none none none none none).chart_type = "line"
  ∧ (resolve_chart_config
        ⟨some "bar", some "A", none, none, none, none, none, none,
         [("by_time", ⟨none, none, some "B", none, none, none, none, none⟩)]⟩
        "by_time" (some "line") none none none none none).x_col = some "A"
  ∧ (resolve_chart_config
        ⟨some "bar", some "A", none, none, none, none, none, none,
         [("by_time", ⟨none, none, some "B", none, none, none, none, none⟩)]⟩
        "by_time" (some "line") none none none none none).y_col = some "B" := by
  refine ⟨rfl, by with_unfolding_all rfl, by with_unfolding_all rfl,
    by with_unfolding_all rfl⟩

/-- C4: the documented inverses hold for the K/currency/percent/comma/hour
forms, but not for minutes: `_format_duration 120 = "2.0m"`, and
`_parse_formatted_value "2.0m"` hits the lowercased *millions* branch first,
recovering 2 000 000 instead of the claimed 120 (the dedicated minutes
branch below it is unreachable). -/
theorem parse_formatted_value_roundtrip :
    parse_formatted_value "1.5K" = some 1500
  ∧ parse_formatted_value "$500.00" = some 500
  ∧ parse_formatted_value "2.0h" = some 7200
  ∧ parse_formatted_value "45.0%" = some 45
  ∧ parse_formatted_value "1,234" = some 1234
  ∧ format_duration 120 = "2.0m"
  ∧ parse_formatted_value "2.0m" = some 2000000 := by
  refine ⟨by with_unfolding_all rfl, by with_unfolding_all rfl,
    by with_unfolding_all rfl, by with_unfolding_all rfl,
    by with_unfolding_all rfl, by with_unfolding_all rfl,
    by with_unfolding_all rfl⟩

/-- C5: the delta block of `MetricRenderer.render`: a nonzero prior gives a
sign-explicit one-decimal percentage of `(current − prior)/|prior|·100`; a
zero prior with nonzero current gives an absolute "(new)"-labelled value; a
zero/zero pair or a failed parse (`none`) reports no delta at all. -/
theorem compute_delta_spec :
    (∀ v p : ℚ, p ≠ 0 →
      compute_delta (some v) (some p) =
        some (pySignedFixed1 ((v - p) / |p| * 100) ++ "%"))
  ∧ (∀ v : ℚ, v ≠ 0 →
      compute_delta (some v) (some 0) = some ("+" ++ format_number v ++ " (new)"))
  ∧ compute_delta (some 0) (some 0) = none
  ∧ (∀ x, compute_delta none x = none)
  ∧ (∀ x, compute_delta x none = none)
  ∧ compute_delta (some 150) (some 100) = some "+50.0%"
  ∧ compute_delta (some 50) (some 0) = some ("+" ++ format_number 50 ++ " (new)") := by
  refine ⟨?_, ?_, ?_, ?_, ?_, ?_, ?_⟩
  · intro v p hp; simp [compute_delta, hp]
  · intro v hv; simp [compute_delta, hv]
  · simp [compute_delta]
  · intro x; rfl
  · intro x; cases x <;> rfl
  · with_unfolding_all rfl
  · with_unfolding_all rfl

/-- Witness for C5 at the claim's concrete inputs, discharging each
hypothesis. -/
theorem compute_delta_spec_witness :
    compute_delta (some 150) (some 100) =
      some (pySignedFixed1 (((150 : ℚ) - 100) / |(100 : ℚ)| * 100) ++ "%")
  ∧ compute_delta (some 50) (some 0) = some ("+" ++ format_number 50 ++ " (new)") :=
  ⟨compute_delta_spec.1 150 100 (by norm_num),
   compute_delta_spec.2.1 50 (by norm_num)⟩

/-- C10: the `user_filter` placeholder value built inside `execute_query` is
never the empty string; whenever no user-specific filter applies (flag off,
object type not "user", value absent, empty, or "All") it is the no-op
clause `AND 1=1`; and only object type "user" can produce an equality
clause. -/
theorem user_filter_clause_spec :
    (∀ (a : Bool) (t v : Option String), user_filter_clause a t v ≠ "")
  ∧ (∀ t v, user_filter_clause false t v = "AND 1=1")
  ∧ (∀ (a : Bool) (t v : Option String), t ≠ some "user" →
      user_filter_clause a t v = "AND 1=1")
  ∧ (∀ (a : Bool) t, user_filter_clause a t none = "AND 1=1")
  ∧ (∀ (a : Bool) t, user_filter_clause a t (some "All") = "AND 1=1")
  ∧ (∀ (a : Bool) t, user_filter_clause a t (some "") = "AND 1=1")
  ∧ (∀ v : String, v ≠ "" → v ≠ "All" →
      user_filter_clause true (some "user") (some v) = "AND USER_NAME = '" ++ v ++ "'")
  ∧ (∀ (a : Bool) (t v : Option String) (s : String),
      user_filter_clause a t v = "AND USER_NAME = '" ++ s ++ "'" → t = some "user") := by
  have husr : ∀ u : String, ("AND USER_NAME = '" ++ u ++ "'").length = 18 + u.length := by
    intro u
    rw [String.length_append, String.length_append]
    have h1 : ("AND USER_NAME = '").length = 17 := rfl
    have h2 : ("'").length = 1 := rfl
    omega
  have hclause : ∀ (a : Bool) (t v : Option String),
      user_filter_clause a t v = "AND 1=1" ∨
      ((a = true ∧ t = some "user") ∧ ∃ u, v = some u ∧ u ≠ "" ∧ u ≠ "All" ∧
        user_filter_clause a t v = "AND USER_NAME = '" ++ u ++ "'") := by
    intro a t v
    unfold user_filter_clause
    by_cases hat : a = true ∧ t = some "user"
    · rcases v with - | u
      · left; rw [if_pos hat]
      · by_cases hu : u ≠ "" ∧ u ≠ "All"
        · right
          refine ⟨hat, u, rfl, hu.1, hu.2, ?_⟩
          rw [if_pos hat]
          show (if u ≠ "" ∧ u ≠ "All" then "AND USER_NAME = '" ++ u ++ "'"
            else "AND 1=1") = "AND USER_NAME = '" ++ u ++ "'"
          rw [if_pos hu]
        · left
          rw [if_pos hat]
          show (if u ≠ "" ∧ u ≠ "All" then "AND USER_NAME = '" ++ u ++ "'"
            else "AND 1=1") = "AND 1=1"
          rw [if_neg hu]
    · left; rw [if_neg hat]
  refine ⟨?_, ?_, ?_, ?_, ?_, ?_, ?_, ?_⟩
  · intro a t v h
    rcases hclause a t v with hc | ⟨-, u, -, -, -, hc⟩ <;> rw [hc] at h
    · exact absurd h (by decide)
    · have hl := congrArg String.length h
      rw [husr] at hl
      have h0 : ("" : String).length = 0 := rfl
      omega
  · intro t v
    unfold user_filter_clause
    rw [if_neg]
    rintro ⟨h, -⟩
    exact Bool.false_ne_true h
  · intro a t v ht
    unfold user_filter_clause
    rw [if_neg]
    rintro ⟨-, h⟩
    exact ht h
  · intro a t
    unfold user_filter_clause
    by_cases hat : a = true ∧ t = some "user"
    · rw [if_pos hat]
    · rw [if_neg hat]
  · intro a t
    unfold user_filter_clause
    by_cases hat : a = true ∧ t = some "user"
    · rw [if_pos hat]
      show (if ("All" : String) ≠ "" ∧ ("All" : String) ≠ "All"
        then "AND USER_NAME = '" ++ "All" ++ "'" else "AND 1=1") = "AND 1=1"
      rw [if_neg]
      rintro ⟨-, h⟩
      exact h rfl
    · rw [if_neg hat]
  · intro a t
    unfold user_filter_clause
    by_cases hat : a = true ∧ t = some "user"
    · rw [if_pos hat]
      show (if ("" : String) ≠ "" ∧ ("" : String) ≠ "All"
        then "AND USER_NAME = '" ++ "" ++ "'" else "AND 1=1") = "AND 1=1"
      rw [if_neg]
      rintro ⟨h, -⟩
      exact h rfl
    · rw [if_neg hat]
  · intro v hv hAll
    unfold user_filter_clause
    rw [if_pos ⟨rfl, rfl⟩]
    show (if v ≠ "" ∧ v ≠ "All" then "AND USER_NAME = '" ++ v ++ "'"
      else "AND 1=1") = "AND USER_NAME = '" ++ v ++ "'"
    rw [if_pos ⟨hv, hAll⟩]
  · intro a t v s h
    rcases hclause a t v with hc | ⟨⟨-, ht⟩, -⟩
    · rw [hc] at h
      have hl := congrArg String.length h
      rw [husr] at hl
      have h3 : ("AND 1=1").length = 7 := rfl
      omega
    · exact ht

/-- Witness for C10: the equality-clause conjunct applied at a concrete
user value, together with a concrete no-op case. -/
theorem user_filter_clause_spec_witness :
    user_filter_clause true (some "user") (some "alice") = "AND USER_NAME = '" ++ "alice" ++ "'"
  ∧ user_filter_clause true (some "warehouse") (some "WH1") = "AND 1=1" :=
  ⟨user_filter_clause_spec.2.2.2.2.2.2.1 "alice" (by decide) (by decide),
   user_filter_clause_spec.2.2.1 true (some "warehouse") (some "WH1") (by decide)⟩

/-- C6: the object-filter fragment of `_build_query_params` (identical in
both renderers) is empty whenever the object type is "all" (or the key is
absent, which defaults to "all"), the value is absent or strips to empty,
the stripped value is "All" case-insensitively, or the category has no
column mapping; otherwise it is exactly
`AND <mapped column> = '<value with single quotes doubled>'`, with the fixed
map user/warehouse/role/database → USER_NAME/WAREHOUSE_NAME/ROLE_NAME/DATABASE_NAME. -/
theorem object_filter_clause_spec :
    (∀ ov, object_filter_clause true (some "all") ov = "")
  ∧ (∀ ov, object_filter_clause true none ov = "")
  ∧ (∀ ot, object_filter_clause true ot none = "")
  ∧ (∀ ot v, pyStrip v = "" → object_filter_clause true ot (some v) = "")
  ∧ (∀ ot v, pyLower (pyStrip v) = "all" → object_filter_clause true ot (some v) = "")
  ∧ (∀ t v, col_map t = none → object_filter_clause true (some t) (some v) = "")
  ∧ (∀ t c v, col_map t = some c → pyStrip v = v → v ≠ "" → pyLower v ≠ "all" →
      object_filter_clause true (some t) (some v) =
        "AND " ++ c ++ " = '" ++ pyDoubleQuotes v ++ "'")
  ∧ col_map "user" = some "USER_NAME"
  ∧ col_map "warehouse" = some "WAREHOUSE_NAME"
  ∧ col_map "role" = some "ROLE_NAME"
  ∧ col_map "database" = some "DATABASE_NAME" := by
  refine ⟨?_, ?_, ?_, ?_, ?_, ?_, ?_, rfl, rfl, rfl, rfl⟩
  · intro ov; simp [object_filter_clause]
  · intro ov; simp [object_filter_clause]
  · intro ot; simp [object_filter_clause, pyStrip]
  · intro ot v hv; simp [object_filter_clause, hv]
  · intro ot v hv; simp [object_filter_clause, hv]
  · intro t v hc; simp [object_filter_clause, hc]
  · intro t c v hc hv hne hlow
    have ht : t ≠ "all" := by
      intro h
      rw [h] at hc
      simp [col_map] at hc
    simp only [object_filter_clause, Option.getD_some, hv]
    rw [if_pos trivial, if_pos ⟨ht, hne, hlow⟩, hc]

/-- Witness for C6: the mapped-category conjunct at a value containing a
single quote, and the case-insensitive "All" conjunct at a padded value. -/
theorem object_filter_clause_spec_witness :
    object_filter_clause true (some "user") (some "Bob's") =
      "AND " ++ "USER_NAME" ++ " = '" ++ pyDoubleQuotes "Bob's" ++ "'"
  ∧ object_filter_clause true (some "user") (some " aLL ") = "" :=
  ⟨object_filter_clause_spec.2.2.2.2.2.2.1 "user" "USER_NAME" "Bob's" rfl
      (by with_unfolding_all rfl) (by decide) (by decide),
   object_filter_clause_spec.2.2.2.2.1 (some "user") " aLL " (by with_unfolding_all rfl)⟩

/-- C9: `_extract_metric_value` takes the first row's value of the first
column with numeric dtype, else the first row's first column; an empty table
gives "N/A"; a null extracted value gives "N/A"; a non-null value that
`float()` rejects under a numeric format is returned as its unmodified
string form; a numeric value is formatted per the requested format. -/
theorem extract_metric_value_spec :
    (∀ df fmt, df.isEmpty = true → extract_metric_value df fmt = "N/A")
  ∧ (∀ (df : DataFrame) c v, df.cols.find? (fun c => c.numeric) = some c →
      c.cells.head? = some v → extracted_cell df = some v)
  ∧ (∀ (df : DataFrame) c v, df.cols.find? (fun c => c.numeric) = none →
      df.cols.head? = some c → c.cells.head? = some v → extracted_cell df = some v)
  ∧ (∀ df fmt, df.isEmpty = false → extracted_cell df = some .null →
      extract_metric_value df fmt = "N/A")
  ∧ (∀ df fmt s, df.isEmpty = false → extracted_cell df = some (.str s) →
      pyFloatOfString s = none → extract_metric_value df fmt = s)
  ∧ (∀ df fmt q, df.isEmpty = false → extracted_cell df = some (.num q) →
      extract_metric_value df fmt = format_by_type fmt q) := by
  refine ⟨?_, ?_, ?_, ?_, ?_, ?_⟩
  · intro df fmt h
    simp [extract_metric_value, h]
  · intro df c v hf hv
    simp [extracted_cell, hf, List.headD_eq_head?, hv]
  · intro df c v hf hh hv
    simp [extracted_cell, hf, hh, List.headD_eq_head?, hv]
  · intro df fmt he hc
    simp [extract_metric_value, he, hc]
  · intro df fmt s he hc hs
    simp [extract_metric_value, he, hc, cellFloat, hs, cellStr]
  · intro df fmt q he hc
    simp [extract_metric_value, he, hc, cellFloat]

/-- Witness for C9 at concrete tables: a non-numeric column followed by a
numeric one (the numeric one wins), an empty table, a text-only table under
a numeric format, and a null first value. -/
theorem extract_metric_value_spec_witness :
    extracted_cell ⟨[⟨"A", false, [.str "hello"]⟩, ⟨"B", true, [.num 42]⟩], 1⟩ = some (.num 42)
  ∧ extract_metric_value ⟨[⟨"A", false, [.str "hello"]⟩, ⟨"B", true, [.num 42]⟩], 1⟩ "number"
      = format_by_type "number" 42
  ∧ extract_metric_value ⟨[], 0⟩ "currency" = "N/A"
  ∧ extract_metric_value ⟨[⟨"A", false, [.str "hello"]⟩], 1⟩ "number" = "hello"
  ∧ extract_metric_value ⟨[⟨"B", true, [.null]⟩], 1⟩ "number" = "N/A" :=
  ⟨extract_metric_value_spec.2.1 _ ⟨"B", true, [.num 42]⟩ (.num 42)
      (by with_unfolding_all rfl) rfl,
   extract_metric_value_spec.2.2.2.2.2 _ "number" 42 rfl (by with_unfolding_all rfl),
   extract_metric_value_spec.1 _ "currency" rfl,
   extract_metric_value_spec.2.2.2.2.1 _ "number" "hello" rfl (by with_unfolding_all rfl)
      (by with_unfolding_all rfl),
   extract_metric_value_spec.2.2.2.1 _ "number" rfl (by with_unfolding_all rfl)⟩

/-- C8: for every non-"custom" supported key, `get_date_range` returns
end = today and start = today minus the documented fixed offset (1, 7, 14,
90, 180, 365 days; one calendar month with day clamping for "1_month"), and
any unknown key falls back to the 7-day range. -/
theorem get_date_range_fixed_offsets (t : Date) :
    get_date_range "1_day" none none t = .ok (fmtDate (subDays t 1), fmtDate t)
  ∧ get_date_range "7_days" none none t = .ok (fmtDate (subDays t 7), fmtDate t)
  ∧ get_date_range "14_days" none none t = .ok (fmtDate (subDays t 14), fmtDate t)
  ∧ get_date_range "3_months" none none t = .ok (fmtDate (subDays t 90), fmtDate t)
  ∧ get_date_range "6_months" none none t = .ok (fmtDate (subDays t 180), fmtDate t)
  ∧ get_date_range "1_year" none none t = .ok (fmtDate (subDays t 365), fmtDate t)
  ∧ (1 ≤ t.month →
      get_date_range "1_month" none none t =
        .ok (fmtDate ⟨(if t.month = 1 then t.year - 1 else t.year),
                      (if t.month = 1 then 12 else t.month - 1),
                      min t.day (daysInMonth (if t.month = 1 then t.year - 1 else t.year)
                        (if t.month = 1 then 12 else t.month - 1))⟩,
              fmtDate t))
  ∧ (∀ k : String, k ≠ "1_day" → k ≠ "7_days" → k ≠ "14_days" → k ≠ "1_month" →
      k ≠ "3_months" → k ≠ "6_months" → k ≠ "1_year" → k ≠ "custom" →
      get_date_range k none none t = .ok (fmtDate (subDays t 7), fmtDate t)) := by
  refine ⟨rfl, rfl, rfl, rfl, rfl, rfl, ?_, ?_⟩
  · intro hm
    have key : get_date_range "1_month" none none t =
        .ok (fmtDate ⟨(predDay ⟨t.year, t.month, 1⟩).year, (predDay ⟨t.year, t.month, 1⟩).month,
              min t.day (predDay ⟨t.year, t.month, 1⟩).day⟩, fmtDate t) := rfl
    rw [key]
    by_cases hm1 : t.month = 1
    · simp [hm1, predDay, daysInMonth, isLeap]
    · have h2 : 1 < t.month := by omega
      simp [predDay, hm1, h2]
  · intro k h1 h2 h3 h4 h5 h6 h7 h8
    simp [get_date_range, h1, h2, h3, h4, h5, h6, h7, h8]

/-- Witness for C8: the calendar-month clamp on 2024-03-31 (leap February,
clamped to the 29th) and an unknown key falling back to seven days. -/
theorem get_date_range_fixed_offsets_witness :
    get_date_range "1_month" none none ⟨2024, 3, 31⟩ = .ok ("2024-02-29", "2024-03-31")
  ∧ get_date_range "weird_key" none none ⟨2024, 3, 31⟩ = .ok ("2024-03-24", "2024-03-31") :=
  ⟨((get_date_range_fixed_offsets ⟨2024, 3, 31⟩).2.2.2.2.2.2.1 (by decide)).trans
      (by with_unfolding_all rfl),
   ((get_date_range_fixed_offsets ⟨2024, 3, 31⟩).2.2.2.2.2.2.2 "weird_key" (by decide)
      (by decide) (by decide) (by decide) (by decide) (by decide) (by decide)
      (by decide)).trans (by with_unfolding_all rfl)⟩
